import Mathlib

/-!
Shallow embedding of the routing decision engine of the orchestrator service:
the model directory (`model_registry.py`), the policy store and budget ledger
(`routing_policies.py`), the router (`intelligent_router.py`), and the
invocation client's reporting glue (`azure_openai_client.py`).

Conventions of the embedding:
* Python floats become `Rat` (all arithmetic in the source is exact-friendly:
  sums, products, comparisons).
* Python dicts become insertion-ordered association lists
  (`List (String × α)`) with an insert that overwrites in place, matching
  CPython dict semantics.
* `datetime.now()` is impure, so the current month string (for the ledger)
  and a timestamp (for `last_health_check`) are passed as explicit arguments.
* Python truthiness on optional fields (`if request.user_override:`,
  `budget_override or ...`) is modelled explicitly by `pyTruthyStr`,
  `pyTruthyNat`, `pyTruthyRat`: `None`, `""`, `0`, `0.0` are falsy.
* Fallible code paths (a raised exception) are modelled with `Except` /
  truncation of a fold, as noted at each definition.
-/

/-- performance characteristics of a model (model_registry.PerformanceMetrics). -/
structure PerformanceMetrics where
  latency : String
  quality : String
  context_length : Nat
deriving Repr, DecidableEq

/-- cost per token for input and output (model_registry.CostPerToken). -/
structure CostPerToken where
  input : Rat
  output : Rat
deriving Repr, DecidableEq

/-- complete information about a model deployment (model_registry.ModelInfo).
`endpoint`/`api_version` are kept as opaque strings; `last_health_check` is a
timestamp modelled as `Option Nat`. -/
structure ModelInfo where
  deployment_name : String
  endpoint : String
  api_version : String
  capabilities : List String
  performance_metrics : PerformanceMetrics
  tags : List String
  health_status : String
  cost_per_token : CostPerToken
  last_health_check : Option Nat := none
  error_count : Nat := 0
  total_requests : Nat := 0
  total_tokens : Nat := 0
deriving Repr, DecidableEq

/-- the model directory's catalog: `ModelRegistry.models`, a dict keyed by
deployment name, as an insertion-ordered association list. -/
abbrev Registry := List (String × ModelInfo)

/-- insertion into a CPython dict: overwrite in place if the key exists,
else append. -/
def dictInsert {α : Type} (d : List (String × α)) (k : String) (v : α) :
    List (String × α) :=
  if d.any (fun p => p.1 == k) then
    d.map (fun p => if p.1 == k then (k, v) else p)
  else d ++ [(k, v)]

/-- ModelRegistry.get_model: `self.models.get(deployment_name)`. -/
def get_model (reg : Registry) (deployment_name : String) : Option ModelInfo :=
  reg.lookup deployment_name

/-- body of ModelRegistry.update_model_health: the field writes performed on
the found entry (health status, health-check timestamp, error count). -/
def apply_health_update (health_status : String) (error_count now : Nat)
    (m : ModelInfo) : ModelInfo :=
  { m with health_status := health_status, last_health_check := some now,
           error_count := error_count }

/-- ModelRegistry.update_model_health: sets health fields and the health-check
timestamp if the name is known, otherwise a no-op. -/
def update_model_health (reg : Registry) (deployment_name health_status : String)
    (error_count : Nat) (now : Nat) : Registry :=
  if (reg.lookup deployment_name).isSome then
    reg.map (fun p =>
      if p.1 == deployment_name then
        (p.1, apply_health_update health_status error_count now p.2)
      else p)
  else reg

/-- ModelRegistry.record_usage: increments the usage counters if the name is
known, otherwise a no-op. -/
def record_usage (reg : Registry) (deployment_name : String)
    (request_count token_count : Nat) : Registry :=
  if (reg.lookup deployment_name).isSome then
    reg.map (fun p =>
      if p.1 == deployment_name then
        let m := { p.2 with total_requests := p.2.total_requests + request_count
                            total_tokens := p.2.total_tokens + token_count }
        (p.1, m)
      else p)
  else reg

/-- ModelRegistry.get_model_cost_estimate: token counts times per-token cost,
0 when the deployment is unknown. -/
def get_model_cost_estimate (reg : Registry) (deployment_name : String)
    (input_tokens output_tokens : Nat) : Rat :=
  match get_model reg deployment_name with
  | some m =>
      (input_tokens : Rat) * m.cost_per_token.input
        + (output_tokens : Rat) * m.cost_per_token.output
  | none => 0

/-- rules for model selection with fallback options
(routing_policies.ModelSelectionRules). -/
structure ModelSelectionRules where
  primary : String
  fallback : Option String := none
  budget_fallback : Option String := none
deriving Repr, DecidableEq

/-- budget constraints for model usage (routing_policies.BudgetConstraints). -/
structure BudgetConstraints where
  monthly_budget : Rat
  cost_threshold : Rat
  automatic_downshift : Bool := true
deriving Repr, DecidableEq

/-- feature flags for routing behavior (routing_policies.FeatureFlags). -/
structure FeatureFlags where
  a_b_testing : Bool := false
  quality_priority : Bool := true
deriving Repr, DecidableEq

/-- complete routing policy for a tenant and feature
(routing_policies.RoutingPolicy); the created/updated timestamps play no role
in routing and are omitted. -/
structure RoutingPolicy where
  tenant_id : String
  feature : String
  model_selection_rules : ModelSelectionRules
  budget_constraints : BudgetConstraints
  feature_flags : FeatureFlags
deriving Repr, DecidableEq

/-- the policy store: `RoutingPolicyManager.policies`, a dict keyed by the
string `tenant_id ++ ":" ++ feature` exactly as in the source. -/
abbrev Policies := List (String × RoutingPolicy)

/-- RoutingPolicyManager.get_policy: lookup under the `tenant:feature` key. -/
def get_policy (ps : Policies) (tenant_id feature : String) :
    Option RoutingPolicy :=
  ps.lookup (tenant_id ++ ":" ++ feature)

/-- RoutingPolicyManager.get_default_policy: the tenant literally named
"default". -/
def get_default_policy (ps : Policies) (feature : String) :
    Option RoutingPolicy :=
  get_policy ps "default" feature

/-- the budget ledger: `RoutingPolicyManager.budget_tracker`,
tenant_id -> month -> cumulative spend. -/
abbrev BudgetTracker := List (String × List (String × Rat))

/-- reading the ledger as the router does:
`budget_tracker.get(tenant_id, {}).get(current_month, 0.0)`. -/
def budget_lookup (t : BudgetTracker) (tenant_id month : String) : Rat :=
  match t.lookup tenant_id with
  | none => 0
  | some mm => (mm.lookup month).getD 0

/-- RoutingPolicyManager.record_usage_cost: creates the tenant entry and the
month entry at 0.0 when absent, then adds `amount`. The source performs no
validation of `amount`: any value, negative included, is added. -/
def record_usage_cost (t : BudgetTracker) (tenant_id month : String)
    (amount : Rat) : BudgetTracker :=
  let months := (t.lookup tenant_id).getD []
  let current := (months.lookup month).getD 0
  dictInsert t tenant_id (dictInsert months month (current + amount))

/-- Python truthiness of an optional string: None and "" are falsy. -/
def pyTruthyStr : Option String → Bool
  | none => false
  | some s => !(s == "")

/-- Python truthiness of an optional integer: None and 0 are falsy. -/
def pyTruthyNat : Option Nat → Bool
  | none => false
  | some n => !(n == 0)

/-- Python truthiness of an optional float: None and 0.0 are falsy. -/
def pyTruthyRat : Option Rat → Bool
  | none => false
  | some q => !(q == 0)

/-- request for model routing (intelligent_router.RoutingRequest). -/
structure RoutingRequest where
  tenant_id : String
  feature : String
  required_capabilities : List String
  quality_priority : Option Bool := none
  budget_override : Option Rat := none
  latency_requirement : Option String := none
  context_length_estimate : Option Nat := none
  user_override : Option String := none
deriving Repr, DecidableEq

/-- response from model routing (intelligent_router.RoutingResponse). -/
structure RoutingResponse where
  selected_model : String
  routing_reason : String
  fallback_used : Bool
  budget_impact : Rat
  estimated_latency : String
  confidence_score : Rat
deriving Repr, DecidableEq

/-- IntelligentRouter._validate_model_capabilities (textually identical to
RoutingPolicyManager._validate_model_capabilities): an empty requirement list
short-circuits to True before the directory is consulted; otherwise the
deployment must exist, be healthy, and contain every required capability. -/
def validate_model_capabilities (reg : Registry) (deployment_name : String)
    (required_capabilities : List String) : Bool :=
  if required_capabilities.isEmpty then true
  else
    match get_model reg deployment_name with
    | none => false
    | some m =>
        if !(m.health_status == "healthy") then false
        else required_capabilities.all (fun cap => m.capabilities.contains cap)

/-- IntelligentRouter._meets_latency_requirement's `latency_hierarchy` dict
read with `.get(key, 3)`: unknown classes default to 3. -/
def latency_hierarchy (s : String) : Nat :=
  if s == "very_low" then 0
  else if s == "low" then 1
  else if s == "medium" then 2
  else if s == "high" then 3
  else 3

/-- IntelligentRouter._meets_latency_requirement: model level ≤ required
level. -/
def meets_latency_requirement (model_latency required_latency : String) : Bool :=
  latency_hierarchy model_latency ≤ latency_hierarchy required_latency

/-- IntelligentRouter._check_performance_requirements: unknown deployment
fails; the latency check runs only when `request.latency_requirement` is
truthy; the context check runs only when `request.context_length_estimate` is
truthy and fails when the estimate exceeds the model's context length. -/
def check_performance_requirements (reg : Registry) (deployment_name : String)
    (request : RoutingRequest) : Bool :=
  match get_model reg deployment_name with
  | none => false
  | some m =>
      (if pyTruthyStr request.latency_requirement then
        meets_latency_requirement m.performance_metrics.latency
          (request.latency_requirement.getD "")
      else true)
      &&
      (if pyTruthyNat request.context_length_estimate then
        !((m.performance_metrics.context_length : Nat) <
          request.context_length_estimate.getD 0)
      else true)

/-- IntelligentRouter._check_budget_constraints: True outright when automatic
downshift is off; otherwise current-month spend must be strictly below
`(budget_override or monthly_budget) * cost_threshold`, where the Python `or`
discards a falsy (absent or zero) override. -/
def check_budget_constraints (t : BudgetTracker) (current_month tenant_id : String)
    (policy : RoutingPolicy) (budget_override : Option Rat) : Bool :=
  if !policy.budget_constraints.automatic_downshift then true
  else
    let current_budget := budget_lookup t tenant_id current_month
    let budget_limit :=
      if pyTruthyRat budget_override then budget_override.getD 0
      else policy.budget_constraints.monthly_budget
    decide (current_budget < budget_limit * policy.budget_constraints.cost_threshold)

/-- IntelligentRouter._select_quality_priority_model: primary needs capability
and performance checks; fallback (when truthy) needs both; budget_fallback
(when truthy) needs only the capability check. -/
def select_quality_priority_model (reg : Registry) (request : RoutingRequest)
    (policy : RoutingPolicy) : Option String :=
  let r := policy.model_selection_rules
  if validate_model_capabilities reg r.primary request.required_capabilities
      && check_performance_requirements reg r.primary request then
    some r.primary
  else if pyTruthyStr r.fallback
      && validate_model_capabilities reg (r.fallback.getD "") request.required_capabilities
      && check_performance_requirements reg (r.fallback.getD "") request then
    some (r.fallback.getD "")
  else if pyTruthyStr r.budget_fallback
      && validate_model_capabilities reg (r.budget_fallback.getD "") request.required_capabilities then
    some (r.budget_fallback.getD "")
  else none

/-- IntelligentRouter._select_cost_optimized_model: fallback first (both
checks), then primary (both checks), then budget_fallback (capability check
only). -/
def select_cost_optimized_model (reg : Registry) (request : RoutingRequest)
    (policy : RoutingPolicy) : Option String :=
  let r := policy.model_selection_rules
  if pyTruthyStr r.fallback
      && validate_model_capabilities reg (r.fallback.getD "") request.required_capabilities
      && check_performance_requirements reg (r.fallback.getD "") request then
    some (r.fallback.getD "")
  else if validate_model_capabilities reg r.primary request.required_capabilities
      && check_performance_requirements reg r.primary request then
    some r.primary
  else if pyTruthyStr r.budget_fallback
      && validate_model_capabilities reg (r.budget_fallback.getD "") request.required_capabilities then
    some (r.budget_fallback.getD "")
  else none

/-- IntelligentRouter._select_optimal_model: the budget gate runs first; on
failure, a truthy budget_fallback that passes the capability check is returned
immediately; otherwise selection falls through to the preference ordering,
with the request's quality_priority overriding the policy flag only when it is
not None. -/
def select_optimal_model (reg : Registry) (t : BudgetTracker)
    (current_month : String) (request : RoutingRequest)
    (policy : RoutingPolicy) : Option String :=
  let budget_path : Option String :=
    if !check_budget_constraints t current_month request.tenant_id policy
        request.budget_override then
      if pyTruthyStr policy.model_selection_rules.budget_fallback then
        let fallback_model := policy.model_selection_rules.budget_fallback.getD ""
        if validate_model_capabilities reg fallback_model
            request.required_capabilities then
          some fallback_model
        else none
      else none
    else none
  match budget_path with
  | some fallback_model => some fallback_model
  | none =>
      let quality_priority :=
        request.quality_priority.getD policy.feature_flags.quality_priority
      if quality_priority then select_quality_priority_model reg request policy
      else select_cost_optimized_model reg request policy

/-- IntelligentRouter._estimate_request_cost: input tokens default to 1000 via
Python `or` (so a zero estimate also becomes 1000), output tokens fixed at
500. -/
def estimate_request_cost (reg : Registry) (deployment_name : String)
    (request : RoutingRequest) : Rat :=
  let estimated_input_tokens :=
    if pyTruthyNat request.context_length_estimate then
      request.context_length_estimate.getD 0
    else 1000
  get_model_cost_estimate reg deployment_name estimated_input_tokens 500

/-- IntelligentRouter._create_override_response: fixed reason "User override",
fallback_used False, confidence 1.0; estimated latency falls back to
"unknown" when the deployment is not in the directory. -/
def create_override_response (reg : Registry) (deployment_name : String)
    (request : RoutingRequest) : RoutingResponse :=
  { selected_model := deployment_name
    routing_reason := "User override"
    fallback_used := false
    budget_impact := estimate_request_cost reg deployment_name request
    estimated_latency :=
      match get_model reg deployment_name with
      | some m => m.performance_metrics.latency
      | none => "unknown"
    confidence_score := 1 }

/-- IntelligentRouter._create_routing_response: fallback_used is
`selected != primary`; the reason compares the selected name against
budget_fallback (a str-vs-Optional comparison in Python, hence
`some selected == budget_fallback` here); confidence 0.9 without fallback,
0.7 with. -/
def create_routing_response (reg : Registry) (request : RoutingRequest)
    (selected_model : String) (policy : RoutingPolicy) : RoutingResponse :=
  let fallback_used := !(selected_model == policy.model_selection_rules.primary)
  { selected_model := selected_model
    routing_reason :=
      if fallback_used then
        if policy.model_selection_rules.budget_fallback == some selected_model then
          "Budget constraint - using cost-optimized model"
        else "Primary model unavailable - using fallback"
      else "Primary model selected"
    fallback_used := fallback_used
    budget_impact := estimate_request_cost reg selected_model request
    estimated_latency :=
      match get_model reg selected_model with
      | some m => m.performance_metrics.latency
      | none => "unknown"
    confidence_score := if !fallback_used then (9 : Rat)/10 else (7 : Rat)/10 }

/-- IntelligentRouter._create_error_response: empty selected model, the error
message as the reason, confidence 0.0. -/
def create_error_response (error_message : String) : RoutingResponse :=
  { selected_model := ""
    routing_reason := error_message
    fallback_used := false
    budget_impact := 0
    estimated_latency := "unknown"
    confidence_score := 0 }

/-- policy resolution of IntelligentRouter.route_request: the tenant-specific
policy, else the policy of the tenant literally named "default". -/
def resolve_policy (ps : Policies) (request : RoutingRequest) :
    Option RoutingPolicy :=
  match get_policy ps request.tenant_id request.feature with
  | some p => some p
  | none => get_default_policy ps request.feature

/-- policy-based part of IntelligentRouter.route_request (everything after the
user-override check): resolve the policy (tenant-specific, then "default"),
then select, then build the response. The analytics-only
`_update_usage_tracking` side effect does not influence the response and is
not modelled. -/
def route_policy_phase (reg : Registry) (ps : Policies) (t : BudgetTracker)
    (current_month : String) (request : RoutingRequest) : RoutingResponse :=
  match resolve_policy ps request with
  | none => create_error_response "No routing policy found"
  | some policy =>
      match select_optimal_model reg t current_month request policy with
      | none => create_error_response "No suitable model available"
      | some selected_model =>
          create_routing_response reg request selected_model policy

/-- IntelligentRouter.route_request: a truthy user_override that passes
`_validate_user_override` (which simply delegates to
`_validate_model_capabilities`) returns immediately; an invalid override is
logged and discarded, falling through to policy-based selection. -/
def route_request (reg : Registry) (ps : Policies) (t : BudgetTracker)
    (current_month : String) (request : RoutingRequest) : RoutingResponse :=
  if pyTruthyStr request.user_override then
    let ov := request.user_override.getD ""
    if validate_model_capabilities reg ov request.required_capabilities then
      create_override_response reg ov request
    else route_policy_phase reg ps t current_month request
  else route_policy_phase reg ps t current_month request

/-- a configuration source as the load routines observe it.
`ModelRegistry.load_config` and `RoutingPolicyManager.load_policies` share the
shape: if the file is absent (`missing`), only a warning is logged; if
`json.load` raises (`unparseable`), the outer `except` logs and returns; if the
JSON parses, the entry list is processed after a `.clear()` of the previous
dict. Each entry is `some a` when `_create_model_info` /
`_create_routing_policy` succeeds on it and `none` when that constructor
raises (e.g. a required key is missing), which aborts the loop mid-way with
the exception caught by the same outer `except`. -/
inductive ConfigSource (α : Type) where
  | missing : ConfigSource α
  | unparseable : ConfigSource α
  | parsed : List (Option α) → ConfigSource α

/-- the load loop over parsed entries, starting from the cleared dict: inserts
each well-formed entry under its key; a raising entry stops the loop, leaving
whatever was inserted so far. -/
def load_entries {α : Type} (key : α → String) :
    List (Option α) → List (String × α) → List (String × α)
  | [], acc => acc
  | none :: _, acc => acc
  | some a :: rest, acc => load_entries key rest (dictInsert acc (key a) a)

/-- shared shape of ModelRegistry.load_config and
RoutingPolicyManager.load_policies over the previous dict contents. -/
def load_table {α : Type} (key : α → String) (prev : List (String × α)) :
    ConfigSource α → List (String × α)
  | ConfigSource.missing => prev
  | ConfigSource.unparseable => prev
  | ConfigSource.parsed entries => load_entries key entries []

/-- ModelRegistry.load_config: catalog entries are keyed by deployment_name.
The environment-variable resolution step never raises (unresolved references
keep the literal placeholder), so it is absorbed into the parsed entry. -/
def load_config (prev : Registry) (src : ConfigSource ModelInfo) : Registry :=
  load_table (fun m => m.deployment_name) prev src

/-- RoutingPolicyManager.load_policies: policies are keyed by
`tenant_id ++ ":" ++ feature`. -/
def load_policies (prev : Policies) (src : ConfigSource RoutingPolicy) :
    Policies :=
  load_table (fun p => p.tenant_id ++ ":" ++ p.feature) prev src

/-- tail of AzureOpenAIClient.chat_completion / create_embedding after routing
succeeded: one backend attempt against the selected deployment (the functions
consult no other deployment and carry no retry decorator). On success,
`_update_usage_tracking` records usage (request_count 1, token_count 0) in the
directory and the measured cost in the ledger, and the measured result is
returned. On failure, `update_model_health(selected, "unhealthy",
error_count=1)` is called with the literal constant 1 and the exception is
re-raised to the caller, modelled as `Except.error`. The backend outcome is
`some (tokens, cost)` on success and `none` on failure. -/
def invoke_after_routing (reg : Registry) (t : BudgetTracker)
    (tenant_id current_month : String) (now : Nat) (selected_model : String)
    (outcome : Option (Nat × Rat)) :
    Except String (Nat × Rat) × Registry × BudgetTracker :=
  match outcome with
  | some r =>
      (Except.ok r,
       record_usage reg selected_model 1 0,
       record_usage_cost t tenant_id current_month r.2)
  | none =>
      (Except.error "backend call failed",
       update_model_health reg selected_model "unhealthy" 1 now,
       t)

/-! Concrete fixtures used by witnesses and counterexamples. -/

/-- sample healthy chat deployment. -/
def mChat : ModelInfo :=
  { deployment_name := "m", endpoint := "e", api_version := "v",
    capabilities := ["chat"],
    performance_metrics := { latency := "low", quality := "high", context_length := 1000 },
    tags := [], health_status := "healthy",
    cost_per_token := { input := 1/1000, output := 2/1000 } }

/-- sample deployment with a nonzero accumulated error count. -/
def mErr5 : ModelInfo := { mChat with error_count := 5 }

/-- sample healthy but slow deployment named "cheap". -/
def mSlow : ModelInfo :=
  { mChat with deployment_name := "cheap"
               performance_metrics := { latency := "high", quality := "low", context_length := 1000 } }

/-- sample directory holding the single deployment "m". -/
def regSample : Registry := [("m", mChat)]

/-- sample policy whose primary is "p" and budget fallback is "m". -/
def polA : RoutingPolicy :=
  { tenant_id := "t", feature := "qa",
    model_selection_rules := { primary := "p", fallback := none, budget_fallback := some "m" },
    budget_constraints := { monthly_budget := 100, cost_threshold := 8/10, automatic_downshift := true },
    feature_flags := { a_b_testing := false, quality_priority := true } }

/-- sample policy whose budget fallback coincides with its primary "m". -/
def polPB : RoutingPolicy :=
  { polA with model_selection_rules := { primary := "m", fallback := none, budget_fallback := some "m" } }

/-- sample policy with a dangling primary and the slow "cheap" budget fallback. -/
def polQ : RoutingPolicy :=
  { polA with model_selection_rules := { primary := "big", fallback := none, budget_fallback := some "cheap" } }

/-- sample policy with monthly ceiling 100 and downshift threshold 1/2. -/
def polHalf : RoutingPolicy :=
  { tenant_id := "t", feature := "qa",
    model_selection_rules := { primary := "p", fallback := none, budget_fallback := none },
    budget_constraints := { monthly_budget := 100, cost_threshold := 1/2, automatic_downshift := true },
    feature_flags := { a_b_testing := false, quality_priority := true } }

/-- sample ledger with 90 currency units of spend for tenant "t". -/
def trHigh : BudgetTracker := [("t", [("2026-10", 90)])]

/-- sample ledger with 10 currency units of spend for tenant "t". -/
def trLow : BudgetTracker := [("t", [("2026-10", 10)])]

/-- sample policy store binding (t, qa) to polA. -/
def psA : Policies := [("t:qa", polA)]

/-- sample policy store binding (t, qa) to polPB. -/
def psPB : Policies := [("t:qa", polPB)]

/-- sample request requiring the chat capability. -/
def reqChat : RoutingRequest :=
  { tenant_id := "t", feature := "qa", required_capabilities := ["chat"] }

/-- sample request with no required capabilities and a very_low latency
requirement. -/
def reqFast : RoutingRequest :=
  { tenant_id := "t", feature := "qa", required_capabilities := []
    latency_requirement := some "very_low" }

/-- sample request carrying a user override naming a deployment that is in no
directory, with an empty required-capability set. -/
def reqOverride : RoutingRequest :=
  { tenant_id := "t", feature := "qa", required_capabilities := []
    user_override := some "claude-x" }

/-! Claim-side predicates (translated from the wording of the spec, to be
compared against the code-side definitions). -/

/-- usability as the spec states it (§4.3.1): the deployment exists in the
Directory, its health equals "healthy", and every required capability is among
its capabilities. -/
def spec_usable (reg : Registry) (deployment_name : String)
    (required_capabilities : List String) : Prop :=
  ∃ m, get_model reg deployment_name = some m ∧ m.health_status = "healthy" ∧
    ∀ c ∈ required_capabilities, c ∈ m.capabilities

/-- the budget gate as the spec states it (§4.2): auto_downshift is off, or
current-month spend is strictly below (overrideCeiling when supplied, else the
monthly ceiling) times the downshift threshold. -/
def spec_under_budget (t : BudgetTracker) (current_month tenant_id : String)
    (policy : RoutingPolicy) (override_ceiling : Option Rat) : Prop :=
  policy.budget_constraints.automatic_downshift = false ∨
    budget_lookup t tenant_id current_month <
      (override_ceiling.getD policy.budget_constraints.monthly_budget) *
        policy.budget_constraints.cost_threshold

/-- gate of one candidate in the ordered preference scan: capability
validation always, performance-fit validation only when `needs_perf` is
set. -/
def candidate_passes (reg : Registry) (request : RoutingRequest)
    (needs_perf : Bool) (name : String) : Bool :=
  validate_model_capabilities reg name request.required_capabilities &&
    (!needs_perf || check_performance_requirements reg name request)

/-- first candidate of an ordered list passing its gate. -/
def first_passing (reg : Registry) (request : RoutingRequest) :
    List (String × Bool) → Option String
  | [] => none
  | (name, needs_perf) :: rest =>
      if candidate_passes reg request needs_perf name then some name
      else first_passing reg request rest

/-- ordered candidates of the quality-priority branch: primary (both checks),
truthy fallback (both checks), truthy budget_fallback (capability check
only). -/
def quality_candidates (policy : RoutingPolicy) : List (String × Bool) :=
  [(policy.model_selection_rules.primary, true)]
    ++ (if pyTruthyStr policy.model_selection_rules.fallback then
          [(policy.model_selection_rules.fallback.getD "", true)] else [])
    ++ (if pyTruthyStr policy.model_selection_rules.budget_fallback then
          [(policy.model_selection_rules.budget_fallback.getD "", false)] else [])

/-- ordered candidates of the cost-priority branch: truthy fallback (both
checks), primary (both checks), truthy budget_fallback (capability check
only). -/
def cost_candidates (policy : RoutingPolicy) : List (String × Bool) :=
  (if pyTruthyStr policy.model_selection_rules.fallback then
      [(policy.model_selection_rules.fallback.getD "", true)] else [])
    ++ [(policy.model_selection_rules.primary, true)]
    ++ (if pyTruthyStr policy.model_selection_rules.budget_fallback then
          [(policy.model_selection_rules.budget_fallback.getD "", false)] else [])

/-- sample directory holding only the slow deployment "cheap". -/
def regQ : Registry := [("cheap", mSlow)]

/-- sample request carrying the valid user override "m". -/
def reqOvM : RoutingRequest :=
  { tenant_id := "t", feature := "qa", required_capabilities := ["chat"]
    user_override := some "m" }

/-! Claim C1. -/

/-- C1 counterexample: for the name "ghost", absent from `regSample`, and an
empty required-capability list, capability validation succeeds even though the
deployment does not exist in the Directory, so validation is not equivalent to
existence-health-capability containment. -/
theorem c1_counterexample :
    ¬ (validate_model_capabilities regSample "ghost" [] = true ↔
        spec_usable regSample "ghost" []) := by
  intro h
  obtain ⟨m, hm, -, -⟩ := h.mp rfl
  have hnone : get_model regSample "ghost" = none := rfl
  rw [hnone] at hm
  exact Option.noConfusion hm

/-- C1 amended: capability validation succeeds iff the required-capability set
is empty (in which case the Directory is never consulted, so even unknown or
unhealthy deployments pass), or the deployment exists, is healthy, and
supports every required capability. -/
theorem c1_amended (reg : Registry) (deployment_name : String)
    (required_capabilities : List String) :
    validate_model_capabilities reg deployment_name required_capabilities = true ↔
      (required_capabilities = [] ∨
        spec_usable reg deployment_name required_capabilities) := by
  unfold validate_model_capabilities spec_usable
  by_cases hc : required_capabilities = []
  · simp [hc]
  · have hc' : required_capabilities.isEmpty = false := by
      cases required_capabilities with
      | nil => exact absurd rfl hc
      | cons a l => rfl
    rw [hc']
    cases hm : get_model reg deployment_name with
    | none => simp [hc]
    | some m =>
        by_cases hh : m.health_status = "healthy"
        · simp [hc, hh, List.all_eq_true, List.elem_iff]
        · simp [hc, hh]

/-! Claim C3. -/

/-- C3 counterexample: with automatic downshift on, spend 10, monthly ceiling
100, threshold 1/2, and an override ceiling of 0 supplied, the code treats the
zero override as absent (Python `or`) and returns true, while the claim's
reading (override used whenever supplied) demands false. -/
theorem c3_counterexample :
    ¬ (check_budget_constraints trLow "2026-10" "t" polHalf (some 0) = true ↔
        spec_under_budget trLow "2026-10" "t" polHalf (some 0)) := by
  have hb : budget_lookup trLow "t" "2026-10" = 10 := rfl
  have hcb : check_budget_constraints trLow "2026-10" "t" polHalf (some 0) = true := by
    unfold check_budget_constraints
    rw [hb]
    norm_num [polHalf, pyTruthyRat]
  intro h
  rcases h.mp hcb with h1 | h2
  · exact absurd h1 (by norm_num [polHalf])
  · rw [hb] at h2
    norm_num [polHalf, Option.getD] at h2

/-- C3 amended: underBudget is true iff auto_downshift is false, or
current-month spend is strictly below the threshold fraction of the ceiling,
where the override ceiling is used only when it is supplied and nonzero
(Python `or` discards a zero override and falls back to the policy's monthly
ceiling). -/
theorem c3_amended (t : BudgetTracker) (current_month tenant_id : String)
    (policy : RoutingPolicy) (budget_override : Option Rat) :
    check_budget_constraints t current_month tenant_id policy budget_override = true ↔
      (policy.budget_constraints.automatic_downshift = false ∨
        budget_lookup t tenant_id current_month <
          (if pyTruthyRat budget_override then budget_override.getD 0
           else policy.budget_constraints.monthly_budget) *
            policy.budget_constraints.cost_threshold) := by
  unfold check_budget_constraints
  cases hauto : policy.budget_constraints.automatic_downshift with
  | false => simp [hauto]
  | true => simp [hauto]

/-! Claim C4. -/

/-- C4: the code records a negative spend amount without any error: starting
from an empty ledger, recording -5 for tenant "t" leaves the tenant's
current-month spend at -5 and the ledger changed, where the spec requires a
signaled error and an unchanged ledger (the function's type - it returns only
the new ledger, never an error - reflects that no validation exists in the
source). -/
theorem c4_negative_spend_recorded :
    budget_lookup (record_usage_cost [] "t" "2026-10" (-5)) "t" "2026-10" = -5 ∧
    record_usage_cost [] "t" "2026-10" (-5) ≠ ([] : BudgetTracker) ∧
    budget_lookup ([] : BudgetTracker) "t" "2026-10" = 0 := by
  refine ⟨?_, ?_, rfl⟩
  · show (0 : Rat) + (-5) = -5
    norm_num
  · show [("t", [("2026-10", (0 : Rat) + (-5))])] ≠ []
    simp

/-! Claim C5. -/

/-- C5 counterexample: a source that parses as JSON but whose single policy
entry is malformed (its constructor raises) empties the previously loaded,
nonempty policy store instead of keeping the previous snapshot. -/
theorem c5_counterexample :
    load_policies [("t:qa", polA)] (ConfigSource.parsed [none]) = [] ∧
    [("t:qa", polA)] ≠ ([] : Policies) := by
  exact ⟨rfl, by decide⟩

/-- C5 amended: a load from a missing file or from a source that fails JSON
parsing keeps the previous snapshot, for both the Directory and the Policy
Store; but once the source parses, the previous contents are discarded
entirely (the result does not depend on them), and a malformed first entry
leaves the store empty - readers can observe an empty or truncated catalog
after such a failed load. -/
theorem c5_amended (prevR prevR2 : Registry) (prevP prevP2 : Policies) :
    load_config prevR ConfigSource.missing = prevR ∧
    load_config prevR ConfigSource.unparseable = prevR ∧
    load_policies prevP ConfigSource.missing = prevP ∧
    load_policies prevP ConfigSource.unparseable = prevP ∧
    (∀ entries, load_config prevR (ConfigSource.parsed entries) =
      load_config prevR2 (ConfigSource.parsed entries)) ∧
    (∀ entries, load_policies prevP (ConfigSource.parsed entries) =
      load_policies prevP2 (ConfigSource.parsed entries)) ∧
    (∀ rest, load_policies prevP (ConfigSource.parsed (none :: rest)) = []) ∧
    (∀ rest, load_config prevR (ConfigSource.parsed (none :: rest)) = []) :=
  ⟨rfl, rfl, rfl, rfl, fun _ => rfl, fun _ => rfl, fun _ => rfl, fun _ => rfl⟩

/-! Claim C10. -/

/-- C10: any latency-class string outside the four recognized classes maps to
level 3 (that of "high"); a deployment with an unrecognized class therefore
satisfies exactly the requirements whose level is 3 (that is, "high" or
unrecognized ones), and an unrecognized latency requirement is satisfied by
every deployment. -/
theorem c10_unrecognized_latency (s : String)
    (h1 : s ≠ "very_low") (h2 : s ≠ "low") (h3 : s ≠ "medium") (h4 : s ≠ "high") :
    latency_hierarchy s = 3 ∧
    (∀ r, meets_latency_requirement s r = true ↔ latency_hierarchy r = 3) ∧
    (∀ m, meets_latency_requirement m s = true) := by
  have hs : latency_hierarchy s = 3 := by
    unfold latency_hierarchy
    simp [h1, h2, h3, h4]
  have hle : ∀ r, latency_hierarchy r ≤ 3 := by
    intro r
    unfold latency_hierarchy
    split_ifs <;> omega
  refine ⟨hs, ?_, ?_⟩
  · intro r
    unfold meets_latency_requirement
    rw [hs]
    simp only [decide_eq_true_eq]
    have := hle r
    omega
  · intro m
    unfold meets_latency_requirement
    rw [hs]
    simp only [decide_eq_true_eq]
    exact hle m

/-- C10 witness: the concrete unrecognized class "weird" is mapped to level 3
and is satisfied by every deployment class. -/
theorem c10_witness :
    latency_hierarchy "weird" = 3 ∧
    (∀ r, meets_latency_requirement "weird" r = true ↔ latency_hierarchy r = 3) ∧
    (∀ m, meets_latency_requirement m "weird" = true) :=
  c10_unrecognized_latency "weird" (by decide) (by decide) (by decide) (by decide)

/-! Claim C2. -/

/-- C2 counterexample: with budget fallback equal to the primary ("m"), the
budget gate fails (spend 90 against ceiling 100 and threshold 8/10), the
fallback exists and validates, and route does return it - but the response
carries `fallback_used = false` and reason "Primary model selected" (the
response is computed from name comparison only), contradicting the claim's
required `used_fallback = true` and budget-fallback reason. -/
theorem c2_counterexample :
    check_budget_constraints trHigh "2026-10" "t" polPB none = false ∧
    polPB.model_selection_rules.budget_fallback = some "m" ∧
    validate_model_capabilities regSample "m" reqChat.required_capabilities = true ∧
    (route_request regSample psPB trHigh "2026-10" reqChat).selected_model = "m" ∧
    (route_request regSample psPB trHigh "2026-10" reqChat).fallback_used = false ∧
    (route_request regSample psPB trHigh "2026-10" reqChat).routing_reason =
      "Primary model selected" := by
  refine ⟨?_, rfl, rfl, ?_, ?_, ?_⟩ <;> with_unfolding_all decide

/-- C2 amended: when the budget gate fails and the policy's budget fallback is
set (truthy) and passes capability validation, selection returns it
immediately, before and regardless of the quality/cost preference ordering;
the response is then computed purely from name comparison, so the
budget-fallback reason, `used_fallback = true` and confidence 0.7 are produced
exactly when the budget fallback differs from the primary (when they
coincide, the response reads "Primary model selected" with confidence 0.9).
For policy-based decisions `used_fallback = (selected != primary)` with
confidence 0.9/0.7; override decisions carry confidence 1.0 and
`used_fallback = false` unconditionally; failure decisions carry confidence
0.0. -/
theorem c2_amended (reg : Registry) (ps : Policies) (t : BudgetTracker)
    (current_month : String) (request : RoutingRequest) (policy : RoutingPolicy)
    (bf : String)
    (hov : pyTruthyStr request.user_override = false)
    (hpol : get_policy ps request.tenant_id request.feature = some policy)
    (hcb : check_budget_constraints t current_month request.tenant_id policy
      request.budget_override = false)
    (hbf : policy.model_selection_rules.budget_fallback = some bf)
    (hbf0 : bf ≠ "")
    (hval : validate_model_capabilities reg bf request.required_capabilities = true) :
    select_optimal_model reg t current_month request policy = some bf ∧
    route_request reg ps t current_month request =
      create_routing_response reg request bf policy ∧
    (bf ≠ policy.model_selection_rules.primary →
      (create_routing_response reg request bf policy).routing_reason =
        "Budget constraint - using cost-optimized model" ∧
      (create_routing_response reg request bf policy).fallback_used = true ∧
      (create_routing_response reg request bf policy).confidence_score = 7/10) ∧
    (∀ sel, ((create_routing_response reg request sel policy).fallback_used = true ↔
        sel ≠ policy.model_selection_rules.primary) ∧
      (create_routing_response reg request sel policy).confidence_score =
        (if sel = policy.model_selection_rules.primary then (9:Rat)/10 else 7/10)) ∧
    (∀ name, (create_override_response reg name request).confidence_score = 1 ∧
      (create_override_response reg name request).fallback_used = false) ∧
    (∀ msg, (create_error_response msg).confidence_score = 0 ∧
      (create_error_response msg).selected_model = "") := by
  have hsel : select_optimal_model reg t current_month request policy = some bf := by
    unfold select_optimal_model
    rw [hcb, hbf]
    simp [pyTruthyStr, hbf0, hval]
  have hroute : route_request reg ps t current_month request =
      create_routing_response reg request bf policy := by
    unfold route_request route_policy_phase resolve_policy
    rw [hov, hpol]
    simp [hsel]
  refine ⟨hsel, hroute, ?_, ?_, fun name => ⟨rfl, rfl⟩, fun msg => ⟨rfl, rfl⟩⟩
  · intro hne
    refine ⟨?_, ?_, ?_⟩ <;> simp [create_routing_response, hbf, hne]
  · intro sel
    constructor
    · simp [create_routing_response]
    · by_cases hsp : sel = policy.model_selection_rules.primary <;>
        simp [create_routing_response, hsp]

/-- C2 witness: with primary "p" and budget fallback "m", spend 90 against
ceiling 100 and threshold 8/10, the budget fallback "m" is selected and the
routed response is the one built for "m". -/
theorem c2_witness :
    select_optimal_model regSample trHigh "2026-10" reqChat polA = some "m" ∧
    route_request regSample psA trHigh "2026-10" reqChat =
      create_routing_response regSample reqChat "m" polA :=
  ⟨(c2_amended regSample psA trHigh "2026-10" reqChat polA "m" rfl rfl
      (by with_unfolding_all decide) rfl (by decide) rfl).1,
   (c2_amended regSample psA trHigh "2026-10" reqChat polA "m" rfl rfl
      (by with_unfolding_all decide) rfl (by decide) rfl).2.1⟩

/-! Claim C6. -/

/-- C6 counterexample: under quality priority with a dangling primary and no
fallback, the budget fallback "cheap" is selected even though it fails
performance-fit validation (its latency class "high" does not meet the
request's "very_low" requirement): selection does not require budget_fallback
to pass the performance-fit check. -/
theorem c6_counterexample :
    select_quality_priority_model regQ reqFast polQ = some "cheap" ∧
    check_performance_requirements regQ "cheap" reqFast = false :=
  ⟨rfl, rfl⟩

/-- C6 amended: both preference orderings are first-match scans over their
stated candidate orders - primary, fallback, budget_fallback under quality
priority; fallback, primary, budget_fallback under cost priority - where
primary and fallback must pass capability validation and performance-fit
validation, but budget_fallback must pass only capability validation
(performance-fit is not checked for it). -/
theorem c6_amended (reg : Registry) (request : RoutingRequest)
    (policy : RoutingPolicy) :
    select_quality_priority_model reg request policy =
      first_passing reg request (quality_candidates policy) ∧
    select_cost_optimized_model reg request policy =
      first_passing reg request (cost_candidates policy) := by
  constructor
  · unfold select_quality_priority_model quality_candidates
    cases hfb : pyTruthyStr policy.model_selection_rules.fallback <;>
    cases hbf : pyTruthyStr policy.model_selection_rules.budget_fallback <;>
      simp [first_passing, candidate_passes, hfb, hbf, Bool.and_assoc]
  · unfold select_cost_optimized_model cost_candidates
    cases hfb : pyTruthyStr policy.model_selection_rules.fallback <;>
    cases hbf : pyTruthyStr policy.model_selection_rules.budget_fallback <;>
      simp [first_passing, candidate_passes, hfb, hbf, Bool.and_assoc]

/-! Claim C7. -/

/-- C7 counterexample: a user override naming "claude-x", absent from the
(empty) Directory, is accepted when the request's required-capability set is
empty (capability validation short-circuits to true without consulting the
Directory), so the decision's reason is "User override" - the override is not
discarded. -/
theorem c7_counterexample :
    get_model ([] : Registry) "claude-x" = none ∧
    (route_request [] psA [] "2026-10" reqOverride).routing_reason =
      "User override" ∧
    (route_request [] psA [] "2026-10" reqOverride).selected_model = "claude-x" :=
  ⟨rfl, rfl, rfl⟩

/-- helper: a policy-phase response never carries the user-override reason. -/
theorem route_policy_phase_reason_ne (reg : Registry) (ps : Policies)
    (t : BudgetTracker) (current_month : String) (request : RoutingRequest) :
    (route_policy_phase reg ps t current_month request).routing_reason ≠
      "User override" := by
  unfold route_policy_phase
  cases hp : resolve_policy ps request with
  | none =>
      exact (by decide : ("No routing policy found" : String) ≠ "User override")
  | some policy =>
      dsimp only
      cases hs : select_optimal_model reg t current_month request policy with
      | none =>
          exact (by decide : ("No suitable model available" : String) ≠ "User override")
      | some sel =>
          dsimp only [create_routing_response]
          split_ifs <;> decide

/-- C7 amended: a truthy user override that passes capability validation is
returned immediately as a user-override decision with confidence 1.0 and no
fallback flag; one that fails capability validation is discarded, selection
proceeds through the policy phase, and the resulting reason is never
"User override". However, an override naming a deployment absent from the
Directory fails validation - and is hence discarded - only when the request's
required-capability set is nonempty; with an empty set, validation
short-circuits to true and the unknown override is accepted. -/
theorem c7_amended (reg : Registry) (ps : Policies) (t : BudgetTracker)
    (current_month : String) (request : RoutingRequest) (ov : String)
    (hov : request.user_override = some ov) (hne : ov ≠ "") :
    (validate_model_capabilities reg ov request.required_capabilities = true →
      route_request reg ps t current_month request =
        create_override_response reg ov request ∧
      (create_override_response reg ov request).routing_reason = "User override" ∧
      (create_override_response reg ov request).fallback_used = false ∧
      (create_override_response reg ov request).confidence_score = 1) ∧
    (validate_model_capabilities reg ov request.required_capabilities = false →
      route_request reg ps t current_month request =
        route_policy_phase reg ps t current_month request ∧
      (route_policy_phase reg ps t current_month request).routing_reason ≠
        "User override") ∧
    (request.required_capabilities ≠ [] → get_model reg ov = none →
      validate_model_capabilities reg ov request.required_capabilities = false) := by
  refine ⟨?_, ?_, ?_⟩
  · intro hval
    refine ⟨?_, rfl, rfl, rfl⟩
    unfold route_request
    rw [hov]
    simp [pyTruthyStr, hne, hval]
  · intro hval
    refine ⟨?_, route_policy_phase_reason_ne reg ps t current_month request⟩
    unfold route_request
    rw [hov]
    simp [pyTruthyStr, hne, hval]
  · intro hcaps hnone
    have hne' : request.required_capabilities.isEmpty = false := by
      cases h : request.required_capabilities with
      | nil => exact absurd h hcaps
      | cons a l => rfl
    unfold validate_model_capabilities
    rw [hne', hnone]
    rfl

/-- C7 witness: the override "m", present and healthy in the sample directory
with the chat capability, is returned as the user-override decision. -/
theorem c7_witness :
    route_request regSample psA trLow "2026-10" reqOvM =
      create_override_response regSample "m" reqOvM :=
  ((c7_amended regSample psA trLow "2026-10" reqOvM "m" rfl (by decide)).1 rfl).1

/-! Claim C8. -/

/-- helper: lookup of the updated name through the health-update map - its
entry has the health fields rewritten. -/
theorem lookup_health_map_self (st : String) (ec now : Nat) (name : String)
    (reg : Registry) :
    List.lookup name (reg.map (fun p =>
      if p.1 == name then (p.1, apply_health_update st ec now p.2) else p)) =
    (List.lookup name reg).map (apply_health_update st ec now) := by
  induction reg with
  | nil => simp
  | cons hd tl ih =>
      obtain ⟨a, b⟩ := hd
      rw [List.map_cons]
      dsimp only
      by_cases han : a = name
      · subst han
        rw [if_pos (by simp : (a == a) = true)]
        simp [List.lookup]
      · rw [if_neg (by simp [han] : ¬ ((a == name) = true))]
        simp [List.lookup, beq_eq_false_iff_ne.mpr (Ne.symm han)]
        simpa using ih

/-- helper: lookup of any other name through the health-update map is
untouched. -/
theorem lookup_health_map_other (st : String) (ec now : Nat) (name k : String)
    (reg : Registry) (h : k ≠ name) :
    List.lookup k (reg.map (fun p =>
      if p.1 == name then (p.1, apply_health_update st ec now p.2) else p)) =
    List.lookup k reg := by
  induction reg with
  | nil => simp
  | cons hd tl ih =>
      obtain ⟨a, b⟩ := hd
      rw [List.map_cons]
      dsimp only
      by_cases han : a = name
      · subst han
        rw [if_pos (by simp : (a == a) = true)]
        simp [List.lookup, beq_eq_false_iff_ne.mpr h]
        simpa using ih
      · rw [if_neg (by simp [han] : ¬ ((a == name) = true))]
        by_cases hk2 : k = a
        · subst hk2
          simp [List.lookup]
        · simp [List.lookup, beq_eq_false_iff_ne.mpr hk2]
          simpa using ih

/-- C8 counterexample: a deployment with five accumulated errors ends with
error_count 1 after an invocation failure - the literal constant passed by the
client - not the previous count plus one (which would be 6). -/
theorem c8_counterexample :
    mErr5.error_count = 5 ∧
    (get_model (invoke_after_routing [("m", mErr5)] [] "t" "2026-10" 99 "m"
        none).2.1 "m").map ModelInfo.error_count = some 1 ∧
    (1 : Nat) ≠ 5 + 1 :=
  ⟨rfl, rfl, by decide⟩

/-- C8 amended: on a backend failure, the invocation client reports the
selected deployment unhealthy with a health-check timestamp and with
error_count set to the literal constant 1 (the previous error count is
discarded, not incremented), leaves every other deployment and the budget
ledger untouched, and propagates the failure to the caller; no alternative
deployment is consulted. -/
theorem c8_amended (reg : Registry) (t : BudgetTracker)
    (tenant_id current_month : String) (now : Nat) (selected_model : String)
    (m : ModelInfo) (hm : get_model reg selected_model = some m) :
    (invoke_after_routing reg t tenant_id current_month now selected_model
        none).1 = Except.error "backend call failed" ∧
    get_model (invoke_after_routing reg t tenant_id current_month now
        selected_model none).2.1 selected_model =
      some { m with health_status := "unhealthy", last_health_check := some now,
                    error_count := 1 } ∧
    (invoke_after_routing reg t tenant_id current_month now selected_model
        none).2.2 = t ∧
    (∀ k, k ≠ selected_model →
      get_model (invoke_after_routing reg t tenant_id current_month now
          selected_model none).2.1 k = get_model reg k) := by
  have hupd : (invoke_after_routing reg t tenant_id current_month now
      selected_model none).2.1 =
        update_model_health reg selected_model "unhealthy" 1 now := rfl
  have hm' : List.lookup selected_model reg = some m := hm
  refine ⟨rfl, ?_, rfl, ?_⟩
  · rw [hupd]
    unfold update_model_health get_model
    rw [if_pos (by rw [hm']; rfl)]
    rw [lookup_health_map_self]
    simp [hm', apply_health_update]
  · intro k hk
    rw [hupd]
    unfold update_model_health get_model
    by_cases hsome : (List.lookup selected_model reg).isSome
    · rw [if_pos hsome, lookup_health_map_other _ _ _ _ _ reg hk]
    · rw [if_neg hsome]

/-- C8 witness: for the sample directory holding "m", a backend failure yields
the propagated error, the unhealthy report with error_count 1, and an
unchanged ledger. -/
theorem c8_witness :
    (invoke_after_routing [("m", mChat)] [] "t" "2026-10" 7 "m" none).1 =
      Except.error "backend call failed" ∧
    get_model (invoke_after_routing [("m", mChat)] [] "t" "2026-10" 7 "m"
        none).2.1 "m" =
      some { mChat with health_status := "unhealthy", last_health_check := some 7,
                        error_count := 1 } ∧
    (invoke_after_routing [("m", mChat)] [] "t" "2026-10" 7 "m" none).2.2 =
      ([] : BudgetTracker) :=
  ⟨(c8_amended [("m", mChat)] [] "t" "2026-10" 7 "m" mChat rfl).1,
   (c8_amended [("m", mChat)] [] "t" "2026-10" 7 "m" mChat rfl).2.1,
   (c8_amended [("m", mChat)] [] "t" "2026-10" 7 "m" mChat rfl).2.2.1⟩

/-! Claim C9. -/

/-- C9: for any structurally well-formed request (with its override either
absent/falsy or failing validation, so policy-phase selection runs), routing
is a total function into RoutingResponse - business-logic non-matches return
the typed failure response with an empty selected deployment and confidence 0
("No routing policy found" when neither the tenant-specific nor the default
policy exists, "No suitable model available" when no candidate passes) - and
response construction is failure-free even when the selected or overridden
name is absent from the Directory at that point (latency falls back to
"unknown" and the cost estimate to 0 rather than raising). -/
theorem c9_router_never_fails (reg : Registry) (ps : Policies)
    (t : BudgetTracker) (current_month : String) (request : RoutingRequest)
    (hov : pyTruthyStr request.user_override = false ∨
      validate_model_capabilities reg (request.user_override.getD "")
        request.required_capabilities = false) :
    (resolve_policy ps request = none →
      route_request reg ps t current_month request =
        create_error_response "No routing policy found") ∧
    (∀ policy, resolve_policy ps request = some policy →
      select_optimal_model reg t current_month request policy = none →
      route_request reg ps t current_month request =
        create_error_response "No suitable model available") ∧
    (∀ msg, (create_error_response msg).selected_model = "" ∧
      (create_error_response msg).confidence_score = 0) ∧
    (∀ name policy, get_model reg name = none →
      (create_routing_response reg request name policy).estimated_latency =
        "unknown" ∧
      (create_routing_response reg request name policy).budget_impact = 0) ∧
    (∀ name, get_model reg name = none →
      (create_override_response reg name request).estimated_latency =
        "unknown" ∧
      (create_override_response reg name request).budget_impact = 0) := by
  have hskip : route_request reg ps t current_month request =
      route_policy_phase reg ps t current_month request := by
    unfold route_request
    rcases hov with h | h
    · rw [h]
      simp
    · by_cases htr : pyTruthyStr request.user_override = true
      · simp [htr, h]
      · simp [htr]
  refine ⟨?_, ?_, fun msg => ⟨rfl, rfl⟩, ?_, ?_⟩
  · intro hnone
    rw [hskip]
    unfold route_policy_phase
    rw [hnone]
  · intro policy hp hsel
    rw [hskip]
    unfold route_policy_phase
    rw [hp]
    dsimp only
    rw [hsel]
  · intro name policy hnone
    constructor
    · unfold create_routing_response
      rw [hnone]
    · unfold create_routing_response estimate_request_cost get_model_cost_estimate
      rw [hnone]
  · intro name hnone
    constructor
    · unfold create_override_response
      rw [hnone]
    · unfold create_override_response estimate_request_cost get_model_cost_estimate
      rw [hnone]

/-- C9 witness: with an empty policy store, the sample request routes to the
typed no-policy failure response. -/
theorem c9_witness :
    route_request ([] : Registry) ([] : Policies) ([] : BudgetTracker)
      "2026-10" reqChat = create_error_response "No routing policy found" :=
  (c9_router_never_fails [] [] [] "2026-10" reqChat (Or.inl rfl)).1 rfl
